import Mathlib

/-!
Verification development for the noble-uwp BLE bindings
(`lib/bindings.js`, `lib/rt-utils.js`).

The JavaScript source is shallowly embedded: JS numbers that hold
bit-masks, addresses and bytes become `Nat` (with explicit `% 256` and
two's-complement adjustments where the code performs them), JS strings
become `String` (operated on through `String.data : List Char`), JS
objects become structures, the mutable maps (`_deviceMap`,
`_listenerMap`, `disposableMap`, the per-record GATT caches) become
explicit function-valued state passed in and out, promise chains with
`throw`/`catch` become `Except`, and asynchronous transport calls become
oracle parameters describing the transport's reply.  Built-in JS
operations used by the source (`toString(16)`, `toLowerCase`, `substr`,
regular-expression search, `replace`) are modelled by small executable
Lean functions that implement the same ASCII-level behaviour.
-/

/-- A thrown JS value: an ordinary `Error` with its message, or the
`ReferenceError` raised when an undeclared identifier is evaluated
(strict mode), carrying the identifier's name. -/
inductive JsError where
  | error (msg : String)
  | referenceError (ident : String)
deriving DecidableEq

/-- `Windows.Devices.Bluetooth.GenericAttributeProfile.GattCommunicationStatus`. -/
inductive GattCommunicationStatus where
  | success
  | unreachable
  | protocolError
  | accessDenied
deriving DecidableEq

/-- `Windows.Devices.Bluetooth.BluetoothCacheMode`. -/
inductive BluetoothCacheMode where
  | cached
  | uncached
deriving DecidableEq

/-- `checkCommunicationResult` (bindings.js): throws on an
`unreachable` or `protocolError` status, otherwise falls through. -/
def checkCommunicationResult (deviceUuid : String) (status : GattCommunicationStatus) :
    Except JsError Unit :=
  if status = .unreachable then
    .error (.error ("Device unreachable: " ++ deviceUuid))
  else if status = .protocolError then
    .error (.error ("Protocol error communicating with device: " ++ deviceUuid))
  else
    .ok ()

/-- The character a single base-16 digit renders as in JS
(`Number.prototype.toString(16)` uses lowercase letters). -/
def hexDigitChar (d : Nat) : Char :=
  if d < 10 then Char.ofNat (48 + d) else Char.ofNat (87 + d)

/-- Base-16 digits of `n`, least significant first, with explicit fuel
(the fuel only needs to dominate the digit count; `n` itself always
does). -/
def lsbDigits : Nat → Nat → List Nat
  | 0, _ => []
  | fuel + 1, n => if n = 0 then [] else n % 16 :: lsbDigits fuel (n / 16)

/-- All base-16 digits of `n`, least significant first. -/
def hexList (n : Nat) : List Nat :=
  lsbDigits n n

/-- Model of JS `n.toString(16)` for a non-negative integer: lowercase
base-16 digits, most significant first, `"0"` for zero. -/
def jsHexString (n : Nat) : List Char :=
  if n = 0 then ['0'] else ((hexList n).map hexDigitChar).reverse

/-- The `while (formattedAddress.length < 12) formattedAddress = '0' + ...`
loop of `formatBluetoothAddress`: left-pad with `'0'` to 12 characters. -/
def padTo12 (s : List Char) : List Char :=
  List.replicate (12 - s.length) '0' ++ s

/-- JS `s.substr(start, len)`. -/
def jsSubstr (s : List Char) (start len : Nat) : List Char :=
  (s.drop start).take len

/-- `formatBluetoothAddress` (bindings.js): `'null'` for a falsy
address (the integer 0), otherwise the base-16 rendering padded to 12
digits and split into colon-separated pairs. -/
def formatBluetoothAddress (address : Nat) : String :=
  if address = 0 then "null"
  else
    let f := padTo12 (jsHexString address)
    String.mk (jsSubstr f 0 2 ++ ':' :: jsSubstr f 2 2 ++ ':' :: jsSubstr f 4 2 ++
      ':' :: jsSubstr f 6 2 ++ ':' :: jsSubstr f 8 2 ++ ':' :: jsSubstr f 10 2)

/-- Two lowercase hex digits of one byte. -/
def byteHexPair (b : Nat) : List Char :=
  [hexDigitChar (b / 16), hexDigitChar (b % 16)]

/-- Spec-side address format, written from the spec's words: the
48-bit integer rendered as six lowercase-hex byte pairs joined by
colons, zero-padded to 12 hex digits total. -/
def specAddressFormat (n : Nat) : String :=
  String.mk (byteHexPair (n / 2 ^ 40 % 256) ++ ':' :: byteHexPair (n / 2 ^ 32 % 256) ++
    ':' :: byteHexPair (n / 2 ^ 24 % 256) ++ ':' :: byteHexPair (n / 2 ^ 16 % 256) ++
    ':' :: byteHexPair (n / 2 ^ 8 % 256) ++ ':' :: byteHexPair (n % 256))

/-- Case-insensitive character comparison (the regex `/i` flag). -/
def ciCharEq (a b : Char) : Bool :=
  a.toLower == b.toLower

/-- Does the literal pattern `p` match a prefix of `s`,
case-insensitively? -/
def matchLit : List Char → List Char → Bool
  | [], _ => true
  | _ :: _, [] => false
  | p :: ps, c :: cs => ciCharEq p c && matchLit ps cs

/-- The regex character class `[0-9A-F]` under the `/i` flag. -/
def isHexDigitChar (c : Char) : Bool :=
  ('0' ≤ c && c ≤ '9') || ('a' ≤ c && c ≤ 'f') || ('A' ≤ c && c ≤ 'F')

/-- Does the regex of `formatUuid` — literal `{0000`, four hex digits,
literal `-0000-1000-8000-00805F9B34FB}`, all case-insensitive — match at
the start of `s`?  Note that the pattern includes the literal braces of
the WinRT GUID rendering. -/
def matchesBaseUuidAt (s : List Char) : Bool :=
  matchLit "\x7b0000".data s &&
    (match s.drop 5 with
     | a :: b :: c :: d :: rest =>
         isHexDigitChar a && isHexDigitChar b && isHexDigitChar c && isHexDigitChar d &&
           matchLit "-0000-1000-8000-00805F9B34FB\x7d".data rest
     | _ => false)

/-- JS `RegExp.prototype.test`: search for a match at every position. -/
def containsBaseUuid : List Char → Bool
  | [] => matchesBaseUuidAt []
  | c :: t => matchesBaseUuidAt (c :: t) || containsBaseUuid t

/-- The character class `[-\x7b\x7d]` of `formatUuid`'s replace call. -/
def stripUuidChar (c : Char) : Bool :=
  c = '-' || c = '\x7b' || c = '\x7d'

/-- `formatUuid` (bindings.js): a falsy (empty) string is returned as
is; a string containing the braced Bluetooth base-UUID pattern is cut
down to characters 5..8 (the assigned number) and lowercased; any other
string has `-`, `\x7b`, `\x7d` removed and is lowercased.
`Char.toLower` models JS `toLowerCase` on the ASCII characters involved. -/
def formatUuid (uuid : String) : String :=
  if uuid.data = [] then uuid
  else if containsBaseUuid uuid.data then
    String.mk (((uuid.data.drop 5).take 4).map Char.toLower)
  else
    String.mk ((uuid.data.filter (fun c => !stripUuidChar c)).map Char.toLower)

/-- `Windows...GattCharacteristicProperties` flag values. -/
def gattPropBroadcast : Nat := 1
def gattPropRead : Nat := 2
def gattPropWriteWithoutResponse : Nat := 4
def gattPropWrite : Nat := 8
def gattPropNotify : Nat := 16
def gattPropIndicate : Nat := 32
def gattPropAuthenticatedSignedWrites : Nat := 64
def gattPropExtendedProperties : Nat := 128

/-- `characteristicPropertiesToStrings` (bindings.js): the pushes in
source order.  Note that the seventh test — the one that pushes
`'authenticatedSignedWrites'` — tests `GattCharacteristicProperties.broadcast`
in the source, and that test is reproduced here verbatim. -/
def characteristicPropertiesToStrings (props : Nat) : List String :=
  (if props &&& gattPropBroadcast ≠ 0 then ["broadcast"] else []) ++
  (if props &&& gattPropRead ≠ 0 then ["read"] else []) ++
  (if props &&& gattPropWriteWithoutResponse ≠ 0 then ["writeWithoutResponse"] else []) ++
  (if props &&& gattPropWrite ≠ 0 then ["write"] else []) ++
  (if props &&& gattPropNotify ≠ 0 then ["notify"] else []) ++
  (if props &&& gattPropIndicate ≠ 0 then ["indicate"] else []) ++
  (if props &&& gattPropBroadcast ≠ 0 then ["authenticatedSignedWrites"] else []) ++
  (if props &&& gattPropExtendedProperties ≠ 0 then ["extendedProperties"] else [])

/-- The tracked-disposables table of rt-utils.js
(`disposableMap`), keyed by device identifier.  Tracked objects are
identified by their object identity, modelled as a `Nat` token. -/
def DisposableMap : Type := String → Option (List Nat)

def emptyDisposableMap : DisposableMap := fun _ => none

/-- `trackDisposable` (rt-utils.js): a falsy object is ignored;
otherwise the object is appended to the identifier's list unless an
identical object (`Object.is`) is already tracked.  (The
`typeof obj.close !== 'function'` guard is not modelled: every token
here stands for an object that has a `close` method.) -/
def trackDisposable (key : String) (obj : Option Nat) (m : DisposableMap) : DisposableMap :=
  match obj with
  | none => m
  | some o =>
    let l := (m key).getD []
    if o ∈ l then m
    else fun k => if k = key then some (l ++ [o]) else m k

/-- `disposeAll` (rt-utils.js): returns the list of objects whose
`close()` is invoked, in tracked order, together with the table
afterwards.  The source iterates over the identifier's list calling
`close()` and never removes the list from `disposableMap`, so the
table is returned unchanged. -/
def disposeAll (m : DisposableMap) (key : String) : List Nat × DisposableMap :=
  match m key with
  | none => ([], m)
  | some l => (l, m)

/-- A GATT object handed back by the transport layer (service,
characteristic or descriptor): an identity token plus its UUID string. -/
structure GattObject where
  id : Nat
  uuid : String
deriving DecidableEq

/-- One reply from a transport-layer GATT enumeration. -/
structure GattQueryResult where
  status : GattCommunicationStatus
  objects : List GattObject

/-- The transport layer consumed by the resolver chain: each
enumeration accepts a `BluetoothCacheMode` and a parent object id. -/
structure Transport where
  getGattServices : BluetoothCacheMode → GattQueryResult
  getCharacteristics : Nat → BluetoothCacheMode → GattQueryResult
  getDescriptors : Nat → BluetoothCacheMode → GattQueryResult

/-- The per-device record of `_deviceMap` (bindings.js, the object
literal of `_onAdvertisementWatcherReceived` plus the
`manufacturerData` property added on first merge). -/
structure DeviceRecord where
  name : Option String
  address : Nat
  formattedAddress : String
  addressType : String
  connectable : Option Bool
  serviceUuids : List String
  txPowerLevel : Option Int
  manufacturerData : Option (List Nat)
  device : Option Nat
  serviceMap : String → Option GattObject
  characteristicMap : String → Option GattObject
  descriptorMap : String → Option GattObject

/-- `this._deviceMap`. -/
def DeviceMap : Type := String → Option DeviceRecord

def emptyDeviceMap : DeviceMap := fun _ => none

/-- `BluetoothLEAdvertisementType` enum values. -/
def advTypeConnectableUndirected : Nat := 0
def advTypeConnectableDirected : Nat := 1
def advTypeScannableUndirected : Nat := 2
def advTypeNonConnectableUndirected : Nat := 3
def advTypeScanResponse : Nat := 4

/-- `BluetoothLEAdvertisementDataTypes.txPowerLevel`. -/
def advDataTypeTxPowerLevel : Nat := 10

/-- One raw advertisement data section: its AD type and its bytes. -/
structure DataSection where
  dataType : Nat
  data : List Nat
deriving DecidableEq

/-- The fields of one advertisement-received transport event used by
`_onAdvertisementWatcherReceived`.  `localName` is the (possibly
empty, hence falsy) `e.advertisement.localName`; `manufacturerData`
lists `(companyId, bytes)` sections. -/
structure AdvPacket where
  bluetoothAddress : Nat
  advertisementType : Nat
  rssi : Int
  localName : String
  manufacturerData : List (Nat × List Nat)
  serviceUuids : List String
  dataSections : List DataSection

/-- The advertisement payload of a `discover` event. -/
structure Advertisement where
  localName : Option String
  txPowerLevel : Option Int
  manufacturerData : Option (List Nat)
  serviceUuids : List String
  serviceData : List Nat

/-- A `discover` event as emitted to the application boundary. -/
structure DiscoverEvent where
  deviceUuid : String
  address : String
  addressType : String
  connectable : Option Bool
  advertisement : Advertisement
  rssi : Int

/-- The advertisement snapshot built from a device record at emit time
(bindings.js, the `advertisement` object literal). -/
def advertisementSnapshot (r : DeviceRecord) : Advertisement :=
  { localName := r.name
    txPowerLevel := r.txPowerLevel
    manufacturerData := r.manufacturerData
    serviceUuids := r.serviceUuids
    serviceData := [] }

/-- `address.replace(/:/g, '')`: the device identifier derived from the
formatted address. -/
def jsDeviceUuid (address : Nat) : String :=
  String.mk ((formatBluetoothAddress address).data.filter (fun c => c ≠ ':'))

/-- The service-UUID merge step (bindings.js): push unless already
present. -/
def insertNew (l : List String) (u : String) : List String :=
  if u ∈ l then l else l ++ [u]

/-- The record-update portion of `_onAdvertisementWatcherReceived`:
classify the packet, create the record on first observation, then
merge local name, manufacturer data, service UUIDs and TX power in
source order. -/
def processRecord (old : Option DeviceRecord) (e : AdvPacket) : DeviceRecord :=
  let address := formatBluetoothAddress e.bluetoothAddress
  let addressType := if 3 * 2 ^ 46 ≤ e.bluetoothAddress then "random" else "public"
  let connectable : Option Bool :=
    if e.advertisementType = advTypeConnectableUndirected ∨
        e.advertisementType = advTypeConnectableDirected then some true
    else if e.advertisementType = advTypeNonConnectableUndirected ∨
        e.advertisementType = advTypeScannableUndirected then some false
    else none
  let txPowerLevel : Option Int :=
    match e.dataSections.find? (fun ds => ds.dataType = advDataTypeTxPowerLevel) with
    | some ds =>
        -- dataReader.readByte() reads the section's first byte;
        -- values >= 128 are reinterpreted via two's complement.
        let b := ds.data.headD 0
        some (if 128 ≤ b then (b : Int) - 256 else (b : Int))
    | none => none
  let r0 :=
    match old with
    | some r => r
    | none =>
      { name := none
        address := e.bluetoothAddress
        formattedAddress := address
        addressType := addressType
        connectable := connectable
        serviceUuids := []
        txPowerLevel := none
        manufacturerData := none
        device := none
        serviceMap := fun _ => none
        characteristicMap := fun _ => none
        descriptorMap := fun _ => none }
  let r1 := if e.localName = "" then r0 else { r0 with name := some e.localName }
  let r2 :=
    match e.manufacturerData with
    | [] => r1
    | (cid, d) :: _ =>
        -- the 2-byte little-endian company id is prepended
        { r1 with manufacturerData := some (cid % 256 :: cid / 256 % 256 :: d) }
  let r3 := { r2 with serviceUuids := e.serviceUuids.foldl insertNew r2.serviceUuids }
  -- `if (txPowerLevel)`: the falsy test skips both null and 0.
  let r4 :=
    match txPowerLevel with
    | some v => if v = 0 then r3 else { r3 with txPowerLevel := some v }
    | none => r3
  r4

/-- `_onAdvertisementWatcherReceived` (bindings.js): update the device
map, and emit a `discover` event exactly when the packet's
advertisement type is the scan-response variant. -/
def onAdvertisementReceived (m : DeviceMap) (e : AdvPacket) : DeviceMap × Option DiscoverEvent :=
  let address := formatBluetoothAddress e.bluetoothAddress
  let deviceUuid := jsDeviceUuid e.bluetoothAddress
  let r := processRecord (m deviceUuid) e
  let m' : DeviceMap := fun k => if k = deviceUuid then some r else m k
  if e.advertisementType = advTypeScanResponse then
    (m', some
      { deviceUuid := deviceUuid
        address := address
        addressType := r.addressType
        connectable := r.connectable
        advertisement := advertisementSnapshot r
        rssi := e.rssi })
  else
    (m', none)

/-- Fold a stream of advertisement packets through the watcher handler,
keeping the device map. -/
def processAllAdvertisements (m : DeviceMap) (pkts : List AdvPacket) : DeviceMap :=
  pkts.foldl (fun m e => (onAdvertisementReceived m e).1) m

/-- `_getCachedServiceAsync` (bindings.js): cached hit, else a
cached-mode transport enumeration matched by formatted UUID, with the
match stored in `serviceMap`.  Returns the service together with the
updated device record. -/
def getCachedServiceAsync (t : Transport) (m : DeviceMap) (deviceUuid serviceUuid : String) :
    Except JsError (GattObject × DeviceRecord) :=
  match m deviceUuid with
  | none => .error (.error ("Invalid or unknown device UUID: " ++ deviceUuid))
  | some r =>
    match r.serviceMap serviceUuid with
    | some s => .ok (s, r)
    | none =>
      match r.device with
      | none => .error (.error ("Device is not connected. UUID: " ++ deviceUuid))
      | some _ =>
        let result := t.getGattServices .cached
        match checkCommunicationResult deviceUuid result.status with
        | .error e => .error e
        | .ok _ =>
          match result.objects.find? (fun s => formatUuid s.uuid = serviceUuid) with
          | none =>
              .error (.error ("Service " ++ serviceUuid ++ " not found for device " ++ deviceUuid))
          | some s =>
              .ok (s, { r with
                serviceMap := fun k => if k = serviceUuid then some s else r.serviceMap k })

/-- `_getCachedCharacteristicAsync` (bindings.js): cached hit under the
key `serviceUuid/characteristicUuid`, else resolve the service and run
a cached-mode characteristic enumeration matched by formatted UUID. -/
def getCachedCharacteristicAsync (t : Transport) (m : DeviceMap)
    (deviceUuid serviceUuid characteristicUuid : String) :
    Except JsError (GattObject × DeviceRecord) :=
  match m deviceUuid with
  | none => .error (.error ("Invalid or unknown device UUID: " ++ deviceUuid))
  | some r =>
    let characteristicKey := serviceUuid ++ "/" ++ characteristicUuid
    match r.characteristicMap characteristicKey with
    | some c => .ok (c, r)
    | none =>
      match getCachedServiceAsync t m deviceUuid serviceUuid with
      | .error e => .error e
      | .ok (service, r') =>
        let result := t.getCharacteristics service.id .cached
        match checkCommunicationResult deviceUuid result.status with
        | .error e => .error e
        | .ok _ =>
          match result.objects.find? (fun c => formatUuid c.uuid = characteristicUuid) with
          | none =>
              .error (.error ("Service " ++ serviceUuid ++ " characteristic " ++
                characteristicUuid ++ " not found for device " ++ deviceUuid))
          | some c =>
              .ok (c, { r' with
                characteristicMap := fun k =>
                  if k = characteristicKey then some c else r'.characteristicMap k })

/-- `_getCachedDescriptorAsync` (bindings.js): cached hit under the
compound key, else resolve the characteristic — which the source binds
to a callback parameter named `service` — and then evaluate
`characteristic.getDescriptorsAsync`.  The identifier `characteristic`
is not declared anywhere in that scope, so under `'use strict'` the
evaluation raises a `ReferenceError` before any descriptor query can
run. -/
def getCachedDescriptorAsync (t : Transport) (m : DeviceMap)
    (deviceUuid serviceUuid characteristicUuid descriptorUuid : String) :
    Except JsError (GattObject × DeviceRecord) :=
  match m deviceUuid with
  | none => .error (.error ("Invalid or unknown device UUID: " ++ deviceUuid))
  | some r =>
    let descriptorKey := serviceUuid ++ "/" ++ characteristicUuid ++ "/" ++ descriptorUuid
    match r.descriptorMap descriptorKey with
    | some d => .ok (d, r)
    | none =>
      match getCachedCharacteristicAsync t m deviceUuid serviceUuid characteristicUuid with
      | .error e => .error e
      | .ok (_service, _r') => .error (.referenceError "characteristic")

/-- `GattClientCharacteristicConfigurationDescriptorValue`. -/
inductive CccdValue where
  | cccdNone
  | cccdNotify
  | cccdIndicate
deriving DecidableEq

/-- The `notify` event payload: the notify flag on success, the caught
exception on failure. -/
inductive NotifyEvent where
  | state (flag : Bool)
  | failure (e : JsError)
deriving DecidableEq

/-- `NobleBindings.prototype.notify` (bindings.js): the listener map
(`_listenerMap`, represented by key presence) together with the
emitted `notify` event.  `resolveCharacteristic` stands for the
`_getCachedCharacteristicAsync` outcome and `writeCccd` for the
client-configuration descriptor write; a rejected write or a bad
communication status lands in the final `catch`.  On disable the
listener is removed from the map before the descriptor write is
issued. -/
def notify (lm : String → Bool) (deviceUuid serviceUuid characteristicUuid : String)
    (flag : Bool) (resolveCharacteristic : Except JsError GattObject)
    (writeCccd : CccdValue → Except JsError GattCommunicationStatus) :
    (String → Bool) × NotifyEvent :=
  match resolveCharacteristic with
  | .error e => (lm, .failure e)
  | .ok _ =>
    let listenerKey := deviceUuid ++ "/" ++ serviceUuid ++ "/" ++ characteristicUuid
    let listener := lm listenerKey
    if flag then
      if listener then
        (lm, .state flag)
      else
        match writeCccd .cccdNotify with
        | .error e => (lm, .failure e)
        | .ok status =>
          match checkCommunicationResult deviceUuid status with
          | .error e => (lm, .failure e)
          | .ok _ => (fun k => if k = listenerKey then true else lm k, .state flag)
    else
      if !listener then
        (lm, .state flag)
      else
        let lm' : String → Bool := fun k => if k = listenerKey then false else lm k
        match writeCccd .cccdNone with
        | .error e => (lm', .failure e)
        | .ok status =>
          match checkCommunicationResult deviceUuid status with
          | .error e => (lm', .failure e)
          | .ok _ => (lm', .state flag)

/-- What `NobleBindings.prototype.writeValue` does at the application
boundary: either a `writeValue` event (carrying `none` on success) or
no event at all because a rejection escaped the error handler. -/
inductive WriteValueOutcome where
  | event (error : Option JsError)
  | unhandled (e : JsError)
deriving DecidableEq

/-- `writeValue` (bindings.js): resolve the descriptor, write, check
the communication result, emit the completion event.  Any failure runs
the `catch` callback, whose first statement evaluates the identifier
`withoutResponse` — a parameter of `write`, never declared in
`writeValue` — so the handler itself raises a `ReferenceError` and the
`writeValue` event is never emitted. -/
def writeValue (resolveDescriptor : Except JsError GattObject)
    (writeResult : Except JsError GattCommunicationStatus) (deviceUuid : String) :
    WriteValueOutcome :=
  match resolveDescriptor with
  | .error _ => .unhandled (.referenceError "withoutResponse")
  | .ok _ =>
    match writeResult with
    | .error _ => .unhandled (.referenceError "withoutResponse")
    | .ok status =>
      match checkCommunicationResult deviceUuid status with
      | .error _ => .unhandled (.referenceError "withoutResponse")
      | .ok _ => .event none

/-- A connected device record with a known identity and empty GATT
caches, used as a concrete resolver input. -/
def connectedRecord : DeviceRecord :=
  { name := none
    address := 1
    formattedAddress := "00:00:00:00:00:01"
    addressType := "public"
    connectable := some true
    serviceUuids := []
    txPowerLevel := none
    manufacturerData := none
    device := some 9
    serviceMap := fun _ => none
    characteristicMap := fun _ => none
    descriptorMap := fun _ => none }

/-- A transport whose enumerations succeed and return one service, one
characteristic and one descriptor with plain lowercase UUIDs. -/
def oneOfEachTransport : Transport :=
  { getGattServices := fun _ => { status := .success, objects := [⟨1, "svc"⟩] }
    getCharacteristics := fun _ _ => { status := .success, objects := [⟨2, "chr"⟩] }
    getDescriptors := fun _ _ => { status := .success, objects := [⟨3, "dsc"⟩] } }

/-- A device map holding `connectedRecord` under the identifier `"d"`. -/
def oneDeviceMap : DeviceMap :=
  fun k => if k = "d" then some connectedRecord else none

/-- A device record that already holds a TX power level of -8 dBm. -/
def txMinus8Record : DeviceRecord :=
  { connectedRecord with device := none, txPowerLevel := some (-8) }

/-- An advertisement packet whose TX-power data section carries the
byte 0x00, i.e. a present TX power of 0 dBm. -/
def txZeroPacket : AdvPacket :=
  { bluetoothAddress := 1
    advertisementType := advTypeConnectableUndirected
    rssi := 0
    localName := ""
    manufacturerData := []
    serviceUuids := []
    dataSections := [⟨advDataTypeTxPowerLevel, [0]⟩] }

/-- The same packet carrying the byte 0xC8, i.e. a TX power of -56 dBm. -/
def txMinus56Packet : AdvPacket :=
  { txZeroPacket with dataSections := [⟨advDataTypeTxPowerLevel, [200]⟩] }

/-- A scan-response packet advertising one service UUID. -/
def scanResponsePacket : AdvPacket :=
  { bluetoothAddress := 0x0011223344AA
    advertisementType := advTypeScanResponse
    rssi := -50
    localName := ""
    manufacturerData := []
    serviceUuids := ["uuidA"]
    dataSections := [] }

/-- A connectable advertisement for the same device advertising the
service UUIDs `a` and `b`. -/
def advPacketAB : AdvPacket :=
  { bluetoothAddress := 0x0011223344AA
    advertisementType := advTypeConnectableUndirected
    rssi := -40
    localName := ""
    manufacturerData := []
    serviceUuids := ["a", "b"]
    dataSections := [] }

/-- A follow-up packet for the same device advertising `b` and `c`. -/
def advPacketBC : AdvPacket :=
  { advPacketAB with serviceUuids := ["b", "c"] }

/-- The service-UUID list of an optional device record (an absent
record contributes the empty list the record would be created with). -/
def optServiceUuids : Option DeviceRecord → List String
  | some r => r.serviceUuids
  | none => []

/-- Did a client-configuration descriptor write fail, either by
rejection or by a status that `checkCommunicationResult` turns into a
thrown error? -/
def gattWriteFailed (w : Except JsError GattCommunicationStatus) : Bool :=
  match w with
  | .error _ => true
  | .ok s => s = .unreachable || s = .protocolError

/-- The device record accumulated from `advPacketAB` then
`advPacketBC` on a fresh map. -/
def c8Record : DeviceRecord :=
  { name := none
    address := 0x0011223344AA
    formattedAddress := "00:11:22:33:44:aa"
    addressType := "public"
    connectable := some true
    serviceUuids := ["a", "b", "c"]
    txPowerLevel := none
    manufacturerData := none
    device := none
    serviceMap := fun _ => none
    characteristicMap := fun _ => none
    descriptorMap := fun _ => none }

/-!  Theorems settling the claims.  -/

/-- C1: for any device-map state (hence at any step of any packet
sequence) the watcher handler emits a `discover` event exactly when the
packet's advertisement type is the scan-response variant, and the
emitted event carries the advertisement snapshot of the fully merged
device record stored back into the map. -/
theorem discover_iff_scan_response (m : DeviceMap) (e : AdvPacket) :
    (((onAdvertisementReceived m e).2).isSome ↔
      e.advertisementType = advTypeScanResponse) ∧
    ∀ ev, (onAdvertisementReceived m e).2 = some ev →
      ∃ r, (onAdvertisementReceived m e).1 (jsDeviceUuid e.bluetoothAddress) = some r ∧
        ev.advertisement = advertisementSnapshot r := by
  constructor
  · by_cases h : e.advertisementType = advTypeScanResponse <;>
      simp [onAdvertisementReceived, h]
  · intro ev hev
    by_cases h : e.advertisementType = advTypeScanResponse
    · refine ⟨processRecord (m (jsDeviceUuid e.bluetoothAddress)) e, ?_, ?_⟩
      · simp [onAdvertisementReceived, h]
      · simp [onAdvertisementReceived, h] at hev
        rw [← hev]
    · simp [onAdvertisementReceived, h] at hev

/-- C1 witness: a concrete scan-response packet on an empty map. -/
theorem discover_iff_scan_response_witness :
    ((onAdvertisementReceived emptyDeviceMap scanResponsePacket).2).isSome ∧
    ∃ r, (onAdvertisementReceived emptyDeviceMap scanResponsePacket).1
        (jsDeviceUuid scanResponsePacket.bluetoothAddress) = some r ∧
      ({ deviceUuid := "0011223344aa"
         address := "00:11:22:33:44:aa"
         addressType := "public"
         connectable := none
         advertisement :=
           { localName := none, txPowerLevel := none, manufacturerData := none,
             serviceUuids := ["uuidA"], serviceData := [] }
         rssi := -50 } : DiscoverEvent).advertisement = advertisementSnapshot r :=
  ⟨(discover_iff_scan_response emptyDeviceMap scanResponsePacket).1.mpr rfl,
   (discover_iff_scan_response emptyDeviceMap scanResponsePacket).2 _ rfl⟩

/-- C2 counterexample: the brace-less base-UUID string of the claim
does not match the braced pattern tested by `formatUuid`, so it is not
shortened to `"180d"` but stripped to 32 hex characters. -/
theorem formatUuid_unbraced_base_counterexample :
    formatUuid "0000180D-0000-1000-8000-00805F9B34FB" =
      "0000180d00001000800000805f9b34fb" ∧
    formatUuid "0000180D-0000-1000-8000-00805F9B34FB" ≠ "180d" := by
  decide

/-- C2 (amended): a UUID string beginning with the braced base-UUID
pattern is shortened to the lowercased 4-hex-digit assigned number
(characters 5..8 of the input); a nonempty UUID string not containing
the braced pattern anywhere is returned with hyphens and braces
stripped and lowercased; the two examples, the first now written with
the braces the WinRT GUID rendering carries. -/
theorem formatUuid_amended :
    (∀ s : String, matchesBaseUuidAt s.data = true →
        formatUuid s = String.mk (((s.data.drop 5).take 4).map Char.toLower) ∧
        (formatUuid s).length = 4) ∧
    (∀ s : String, s ≠ "" → containsBaseUuid s.data = false →
        formatUuid s =
          String.mk ((s.data.filter (fun c => !stripUuidChar c)).map Char.toLower)) ∧
    formatUuid "\x7b0000180D-0000-1000-8000-00805F9B34FB\x7d" = "180d" ∧
    formatUuid "6E400001-B5A3-F393-E0A9-E50E24DCCA9E" = "6e400001b5a3f393e0a9e50e24dcca9e" := by
  refine ⟨?_, ?_, by decide, by decide⟩
  · intro s h
    have hne : s.data ≠ [] := by
      intro h0
      rw [h0] at h
      exact absurd h (by decide)
    have hcontains : containsBaseUuid s.data = true := by
      cases hd : s.data with
      | nil => exact absurd hd hne
      | cons c t =>
        rw [hd] at h
        simp [containsBaseUuid, h]
    have hfmt : formatUuid s = String.mk (((s.data.drop 5).take 4).map Char.toLower) := by
      simp [formatUuid, hne, hcontains]
    refine ⟨hfmt, ?_⟩
    have h4 : ((s.data.drop 5).take 4).length = 4 := by
      unfold matchesBaseUuidAt at h
      rcases hdr : s.data.drop 5 with _ | ⟨a, _ | ⟨b, _ | ⟨c, _ | ⟨d, rest⟩⟩⟩⟩ <;>
        rw [hdr] at h <;> simp_all
    rw [hfmt]
    simpa using h4
  · intro s hne hc
    obtain ⟨l⟩ := s
    have hl : l ≠ [] := by
      intro h0
      apply hne
      rw [h0]
    simp [formatUuid, hl, hc]

/-- C2 witness: the braced base-UUID example and the long-form example
run through both amended clauses. -/
theorem formatUuid_amended_witness :
    (matchesBaseUuidAt "\x7b0000180D-0000-1000-8000-00805F9B34FB\x7d".data = true) ∧
    (formatUuid "\x7b0000180D-0000-1000-8000-00805F9B34FB\x7d" =
        String.mk ((("\x7b0000180D-0000-1000-8000-00805F9B34FB\x7d".data.drop 5).take 4).map
          Char.toLower) ∧
      (formatUuid "\x7b0000180D-0000-1000-8000-00805F9B34FB\x7d").length = 4) ∧
    formatUuid "6E400001-B5A3-F393-E0A9-E50E24DCCA9E" =
      String.mk (("6E400001-B5A3-F393-E0A9-E50E24DCCA9E".data.filter
        (fun c => !stripUuidChar c)).map Char.toLower) :=
  ⟨by decide,
   formatUuid_amended.1 _ (by decide),
   formatUuid_amended.2.1 _ (by decide) (by decide)⟩

/-- C3: with a connected, known device, an empty descriptor cache, and
a transport that would happily serve the descriptor, cache-miss
descriptor resolution stops with a `ReferenceError` on the undeclared
identifier `characteristic` instead of querying that characteristic's
descriptors. -/
theorem resolveDescriptor_cache_miss_reference_error :
    getCachedDescriptorAsync oneOfEachTransport oneDeviceMap "d" "svc" "chr" "dsc" =
      .error (.referenceError "characteristic") := rfl

/-- C4 counterexample: a subscribed characteristic whose disable write
fails.  The error is surfaced, but the Subscription Entry has already
been removed: the key is absent from the listener map afterwards,
contradicting the claim that a failed disable leaves the entry in
place. -/
theorem notify_failed_disable_removes_entry_counterexample :
    ((notify (fun k => k == "d/s/c") "d" "s" "c" false (.ok ⟨2, "chr"⟩)
        (fun _ => .error (.error "write failed"))).1 "d/s/c" = false) ∧
    ((notify (fun k => k == "d/s/c") "d" "s" "c" false (.ok ⟨2, "chr"⟩)
        (fun _ => .error (.error "write failed"))).2 = .failure (.error "write failed")) := by
  decide

/-- C4 (amended): a failed transport write surfaces the error to the
caller in both directions, and leaves no Subscription Entry: a failed
enable leaves the listener map untouched (so the key stays absent),
while a failed disable has already removed the entry before the write,
so the key is absent afterwards as well. -/
theorem notify_failed_write_amended (lm : String → Bool) (dU sU cU : String) (ch : GattObject)
    (w : CccdValue → Except JsError GattCommunicationStatus) :
    ((lm (dU ++ "/" ++ sU ++ "/" ++ cU) = false → gattWriteFailed (w .cccdNotify) = true →
        (notify lm dU sU cU true (.ok ch) w).1 = lm ∧
          ∃ e, (notify lm dU sU cU true (.ok ch) w).2 = .failure e) ∧
     (lm (dU ++ "/" ++ sU ++ "/" ++ cU) = true → gattWriteFailed (w .cccdNone) = true →
        (notify lm dU sU cU false (.ok ch) w).1 (dU ++ "/" ++ sU ++ "/" ++ cU) = false ∧
          ∃ e, (notify lm dU sU cU false (.ok ch) w).2 = .failure e)) := by
  constructor
  · intro hkey hw
    unfold notify
    cases hwv : w .cccdNotify with
    | error e => simp [hkey, hwv]
    | ok s =>
      rw [hwv] at hw
      cases s <;> simp_all [gattWriteFailed, checkCommunicationResult, hkey]
  · intro hkey hw
    unfold notify
    cases hwv : w .cccdNone with
    | error e => simp [hkey, hwv]
    | ok s =>
      rw [hwv] at hw
      cases s <;> simp_all [gattWriteFailed, checkCommunicationResult, hkey]

/-- C4 witness: a rejected enable write on an empty map and an
`unreachable` disable write on a subscribed key. -/
theorem notify_failed_write_amended_witness :
    (((notify (fun _ => false) "d" "s" "c" true (.ok ⟨2, "chr"⟩)
          (fun _ => .error (.error "boom"))).1 = (fun _ => false : String → Bool)) ∧
      ∃ e, (notify (fun _ => false) "d" "s" "c" true (.ok ⟨2, "chr"⟩)
          (fun _ => .error (.error "boom"))).2 = .failure e) ∧
    (((notify (fun k => k == "d/s/c") "d" "s" "c" false (.ok ⟨2, "chr"⟩)
          (fun _ => .ok .unreachable)).1 "d/s/c" = false) ∧
      ∃ e, (notify (fun k => k == "d/s/c") "d" "s" "c" false (.ok ⟨2, "chr"⟩)
          (fun _ => .ok .unreachable)).2 = .failure e) :=
  ⟨(notify_failed_write_amended (fun _ => false) "d" "s" "c" ⟨2, "chr"⟩
      (fun _ => .error (.error "boom"))).1 (by decide) (by decide),
   (notify_failed_write_amended (fun k => k == "d/s/c") "d" "s" "c" ⟨2, "chr"⟩
      (fun _ => .ok .unreachable)).2 (by decide) (by decide)⟩

/-- C5: `disposeAll` releases the tracked object but leaves the tracked
set in place, so the identifier does not end up with zero tracked
objects and a second `disposeAll` releases the same object again
(only the no-op-when-empty part of the claim holds). -/
theorem disposeAll_leaves_tracked_set_in_place :
    ((disposeAll (trackDisposable "d" (some 42) emptyDisposableMap) "d").1 = [42]) ∧
    ((disposeAll (trackDisposable "d" (some 42) emptyDisposableMap) "d").2 "d" = some [42]) ∧
    ((disposeAll
        (disposeAll (trackDisposable "d" (some 42) emptyDisposableMap) "d").2 "d").1 = [42]) ∧
    ((disposeAll emptyDisposableMap "d").1 = []) := by
  decide

/-- C6: the authenticated-signed-writes capability does not follow its
own bit: a mask with only that bit set decodes to no capabilities,
while a mask with only the broadcast bit set decodes to both
`broadcast` and `authenticatedSignedWrites`. -/
theorem characteristicProperties_wrong_bit :
    characteristicPropertiesToStrings gattPropAuthenticatedSignedWrites = [] ∧
    characteristicPropertiesToStrings gattPropBroadcast =
      ["broadcast", "authenticatedSignedWrites"] := by
  decide

/-- C7: a packet carrying a TX-power data section with the value 0 dBm
does not overwrite the stored TX power level (the falsy test drops it),
while a nonzero value (here -56 dBm) does. -/
theorem txPowerLevel_zero_dropped :
    (processRecord (some txMinus8Record) txZeroPacket).txPowerLevel = some (-8) ∧
    (processRecord (some txMinus8Record) txMinus56Packet).txPowerLevel = some (-56) :=
  ⟨rfl, rfl⟩

/-- Looking up the processed device in the updated map yields the
merged record. -/
theorem onAdvertisementReceived_fst_apply (m : DeviceMap) (e : AdvPacket) :
    (onAdvertisementReceived m e).1 (jsDeviceUuid e.bluetoothAddress) =
      some (processRecord (m (jsDeviceUuid e.bluetoothAddress)) e) := by
  by_cases h : e.advertisementType = advTypeScanResponse <;>
    simp [onAdvertisementReceived, h]

/-- For a single-device packet stream, the map entry evolves by folding
`processRecord`. -/
theorem processAllAdvertisements_apply (u : String) (pkts : List AdvPacket) :
    ∀ m : DeviceMap, (∀ p ∈ pkts, jsDeviceUuid p.bluetoothAddress = u) →
      processAllAdvertisements m pkts u =
        pkts.foldl (fun r p => some (processRecord r p)) (m u) := by
  induction pkts with
  | nil => intro m _; rfl
  | cons p ps ih =>
    intro m hall
    have hu : jsDeviceUuid p.bluetoothAddress = u := hall p (List.mem_cons_self p ps)
    have hl : (onAdvertisementReceived m p).1 u = some (processRecord (m u) p) := by
      rw [← hu]
      exact onAdvertisementReceived_fst_apply m p
    calc processAllAdvertisements m (p :: ps) u
        = processAllAdvertisements (onAdvertisementReceived m p).1 ps u := rfl
      _ = ps.foldl (fun r p => some (processRecord r p)) ((onAdvertisementReceived m p).1 u) :=
          ih _ (fun q hq => hall q (List.mem_cons_of_mem _ hq))
      _ = ps.foldl (fun r p => some (processRecord r p)) (some (processRecord (m u) p)) := by
          rw [hl]

/-- Only the dedup-push loop touches `serviceUuids` during a merge. -/
theorem processRecord_serviceUuids (old : Option DeviceRecord) (e : AdvPacket) :
    (processRecord old e).serviceUuids =
      e.serviceUuids.foldl insertNew (optServiceUuids old) := by
  unfold processRecord optServiceUuids
  cases old <;> cases hm : e.manufacturerData <;>
    by_cases hn : e.localName = "" <;>
    cases htx : e.dataSections.find? (fun ds => ds.dataType = advDataTypeTxPowerLevel) <;>
    simp [hm, hn, htx, apply_ite DeviceRecord.serviceUuids]

/-- The accumulated service-UUID list is the `insertNew` fold of the
concatenated per-packet lists. -/
theorem optServiceUuids_foldl (pkts : List AdvPacket) :
    ∀ ro : Option DeviceRecord,
      optServiceUuids (pkts.foldl (fun r p => some (processRecord r p)) ro) =
        (pkts.flatMap (fun p => p.serviceUuids)).foldl insertNew (optServiceUuids ro) := by
  induction pkts with
  | nil => intro ro; rfl
  | cons p ps ih =>
    intro ro
    rw [List.flatMap_cons, List.foldl_append]
    calc optServiceUuids ((p :: ps).foldl (fun r p => some (processRecord r p)) ro)
        = optServiceUuids (ps.foldl (fun r p => some (processRecord r p))
            (some (processRecord ro p))) := rfl
      _ = (ps.flatMap (fun p => p.serviceUuids)).foldl insertNew
            (optServiceUuids (some (processRecord ro p))) := ih _
      _ = (ps.flatMap (fun p => p.serviceUuids)).foldl insertNew
            (p.serviceUuids.foldl insertNew (optServiceUuids ro)) := by
          rw [show optServiceUuids (some (processRecord ro p)) =
                (processRecord ro p).serviceUuids from rfl,
             processRecord_serviceUuids]

/-- Folding `insertNew` over a stream keeps the accumulator duplicate
free, agreeing with the stream on membership, ordered by first
occurrence in the stream, and bounded by the processed prefix. -/
theorem foldl_insertNew_invariant (F : List String) :
    ∀ (L p acc : List String), F = p ++ L →
      acc.Nodup →
      (∀ x, x ∈ acc ↔ x ∈ p) →
      acc.Pairwise (fun u v => F.indexOf u < F.indexOf v) →
      (∀ x ∈ acc, F.indexOf x < p.length) →
      (L.foldl insertNew acc).Nodup ∧
      (∀ x, x ∈ L.foldl insertNew acc ↔ x ∈ p ++ L) ∧
      (L.foldl insertNew acc).Pairwise (fun u v => F.indexOf u < F.indexOf v) ∧
      (∀ x ∈ L.foldl insertNew acc, F.indexOf x < p.length + L.length) := by
  intro L
  induction L with
  | nil =>
    intro p acc hF h1 h2 h3 h4
    exact ⟨h1, fun x => by simpa using h2 x, h3, fun x hx => by simpa using h4 x hx⟩
  | cons u L ih =>
    intro p acc hF h1 h2 h3 h4
    have hF' : F = (p ++ [u]) ++ L := by rw [hF]; simp
    by_cases hu : u ∈ acc
    · have hstep : (u :: L).foldl insertNew acc = L.foldl insertNew acc := by
        simp [List.foldl_cons, insertNew, hu]
      have h2' : ∀ x, x ∈ acc ↔ x ∈ p ++ [u] := by
        intro x
        rw [h2 x]
        simp only [List.mem_append, List.mem_singleton]
        constructor
        · exact Or.inl
        · rintro (hx | rfl)
          · exact hx
          · exact (h2 x).mp hu
      have h4' : ∀ x ∈ acc, F.indexOf x < (p ++ [u]).length := by
        intro x hx
        have := h4 x hx
        simp only [List.length_append, List.length_singleton]
        omega
      have := ih (p ++ [u]) acc hF' h1 h2' h3 h4'
      rw [hstep]
      refine ⟨this.1, ?_, this.2.2.1, ?_⟩
      · intro x
        rw [(this.2.1 x)]
        simp
      · intro x hx
        have := this.2.2.2 x hx
        simp only [List.length_append, List.length_singleton, List.length_cons,
          List.length_nil] at *
        omega
    · have hup : u ∉ p := fun hp => hu ((h2 u).mpr hp)
      have hidx : F.indexOf u = p.length := by
        rw [hF, List.indexOf_append_of_not_mem hup, List.indexOf_cons_self]
        omega
      have hstep : (u :: L).foldl insertNew acc = L.foldl insertNew (acc ++ [u]) := by
        simp [List.foldl_cons, insertNew, hu]
      have h1' : (acc ++ [u]).Nodup := by
        refine h1.append (List.nodup_singleton u) ?_
        intro x hx hxu
        rw [List.mem_singleton] at hxu
        exact hu (hxu ▸ hx)
      have h2' : ∀ x, x ∈ acc ++ [u] ↔ x ∈ p ++ [u] := by
        intro x
        simp only [List.mem_append, List.mem_singleton, h2 x]
      have h3' : (acc ++ [u]).Pairwise (fun a b => F.indexOf a < F.indexOf b) := by
        rw [List.pairwise_append]
        refine ⟨h3, List.pairwise_singleton _ _, ?_⟩
        intro a ha b hb
        rw [List.mem_singleton] at hb
        subst hb
        rw [hidx]
        exact h4 a ha
      have h4' : ∀ x ∈ acc ++ [u], F.indexOf x < (p ++ [u]).length := by
        intro x hx
        simp only [List.length_append, List.length_singleton]
        rcases List.mem_append.mp hx with hx | hx
        · have := h4 x hx; omega
        · rw [List.mem_singleton] at hx
          subst hx
          omega
      have := ih (p ++ [u]) (acc ++ [u]) hF' h1' h2' h3' h4'
      rw [hstep]
      refine ⟨this.1, ?_, this.2.2.1, ?_⟩
      · intro x
        rw [this.2.1 x]
        simp
      · intro x hx
        have := this.2.2.2 x hx
        simp only [List.length_append, List.length_singleton, List.length_cons,
          List.length_nil] at *
        omega

/-- C8: for any packet sequence of one device processed from a fresh
watcher state, the accumulated record's service-UUID list has no
duplicates, contains exactly the advertised UUIDs, counts each exactly
once, and its order is the order of first occurrence in the packet
stream. -/
theorem serviceUuids_nodup_first_seen (addr : Nat) (pkts : List AdvPacket) (r : DeviceRecord)
    (hsame : ∀ p ∈ pkts, p.bluetoothAddress = addr)
    (hr : processAllAdvertisements emptyDeviceMap pkts (jsDeviceUuid addr) = some r) :
    r.serviceUuids.Nodup ∧
    (∀ u, u ∈ r.serviceUuids ↔ u ∈ pkts.flatMap (fun p => p.serviceUuids)) ∧
    (∀ u ∈ pkts.flatMap (fun p => p.serviceUuids), r.serviceUuids.count u = 1) ∧
    r.serviceUuids.Pairwise (fun u v =>
      (pkts.flatMap (fun p => p.serviceUuids)).indexOf u <
      (pkts.flatMap (fun p => p.serviceUuids)).indexOf v) := by
  have hsame' : ∀ p ∈ pkts, jsDeviceUuid p.bluetoothAddress = jsDeviceUuid addr :=
    fun p hp => by rw [hsame p hp]
  have h1 := processAllAdvertisements_apply (jsDeviceUuid addr) pkts emptyDeviceMap hsame'
  have hfold : pkts.foldl (fun r p => some (processRecord r p))
      (emptyDeviceMap (jsDeviceUuid addr)) = some r := by
    rw [← h1]
    exact hr
  have hs : r.serviceUuids =
      (pkts.flatMap (fun p => p.serviceUuids)).foldl insertNew [] := by
    have h2 := optServiceUuids_foldl pkts (emptyDeviceMap (jsDeviceUuid addr))
    rw [hfold] at h2
    simpa [emptyDeviceMap, optServiceUuids] using h2
  have hinv := foldl_insertNew_invariant (pkts.flatMap (fun p => p.serviceUuids))
    (pkts.flatMap (fun p => p.serviceUuids)) [] [] (by simp) (List.nodup_nil)
    (by simp) (List.Pairwise.nil) (by simp)
  rw [← hs] at hinv
  refine ⟨hinv.1, ?_, ?_, hinv.2.2.1⟩
  · intro u
    rw [hinv.2.1 u]
    simp
  · intro u hu
    exact List.count_eq_one_of_mem hinv.1 ((hinv.2.1 u).mpr (by simpa using hu))

/-- C8 witness: two packets for one device with overlapping
service-UUID lists accumulate to `["a", "b", "c"]`. -/
theorem serviceUuids_nodup_first_seen_witness :
    (∀ p ∈ [advPacketAB, advPacketBC], p.bluetoothAddress = 0x0011223344AA) ∧
    c8Record.serviceUuids.Nodup ∧
    (∀ u ∈ [advPacketAB, advPacketBC].flatMap (fun p => p.serviceUuids),
      c8Record.serviceUuids.count u = 1) :=
  ⟨by decide,
   (serviceUuids_nodup_first_seen 0x0011223344AA [advPacketAB, advPacketBC] c8Record
      (by decide) rfl).1,
   (serviceUuids_nodup_first_seen 0x0011223344AA [advPacketAB, advPacketBC] c8Record
      (by decide) rfl).2.2.1⟩

/-- C9 counterexample: the 48-bit integer address 0 is rendered as the
string `"null"`, not as six zero byte pairs. -/
theorem formatBluetoothAddress_zero_counterexample :
    formatBluetoothAddress 0 = "null" ∧ ("null" : String) ≠ "00:00:00:00:00:00" := by
  decide

/-- The fuel argument of `lsbDigits` is irrelevant once it dominates
the value. -/
theorem lsbDigits_fuel : ∀ f, ∀ n, n ≤ f → lsbDigits f n = lsbDigits n n := by
  intro f
  induction f using Nat.strong_induction_on with
  | _ f ih =>
    match f with
    | 0 =>
      intro n hn
      interval_cases n
      rfl
    | f + 1 =>
      intro n hn
      match n with
      | 0 => simp [lsbDigits]
      | m + 1 =>
        have hq : (m + 1) / 16 ≤ m := by omega
        show (m + 1) % 16 :: lsbDigits f ((m + 1) / 16) =
          (m + 1) % 16 :: lsbDigits m ((m + 1) / 16)
        rw [ih f (Nat.lt_succ_self f) _ (le_trans hq (by omega)),
          ih m (by omega) _ hq]

/-- The digit list satisfies the textbook unfolding. -/
theorem hexList_eq (n : Nat) :
    hexList n = if n = 0 then [] else n % 16 :: hexList (n / 16) := by
  match n with
  | 0 => rfl
  | m + 1 =>
    show lsbDigits (m + 1) (m + 1) = _
    rw [if_neg (Nat.succ_ne_zero m)]
    show (m + 1) % 16 :: lsbDigits m ((m + 1) / 16) = _
    rw [lsbDigits_fuel m _ (by omega)]
    rfl

/-- Padding the digit list of `n < 16 ^ k` with zeros up to width `k`
yields exactly the digits `n / 16 ^ i % 16`, least significant first. -/
theorem hexList_padded (k : Nat) : ∀ n, n < 16 ^ k →
    hexList n ++ List.replicate (k - (hexList n).length) 0 =
      (List.range k).map (fun i => n / 16 ^ i % 16) := by
  induction k with
  | zero =>
    intro n hn
    interval_cases n
    rfl
  | succ k ih =>
    intro n hn
    rcases Nat.eq_zero_or_pos n with rfl | hpos
    · have h0 : hexList 0 = [] := rfl
      rw [h0]
      simp only [List.nil_append, List.length_nil, Nat.sub_zero]
      have : ∀ i, (0 : Nat) / 16 ^ i % 16 = 0 := by
        intro i
        simp
      simp [this, List.map_const', List.eq_replicate_iff]
    · have hne : n ≠ 0 := Nat.pos_iff_ne_zero.mp hpos
      rw [hexList_eq n, if_neg hne]
      have hdiv : n / 16 < 16 ^ k := by
        rw [Nat.div_lt_iff_lt_mul (by norm_num : (0:Nat) < 16)]
        calc n < 16 ^ (k + 1) := hn
          _ = 16 ^ k * 16 := by rw [pow_succ]
      have ihd := ih (n / 16) hdiv
      rw [List.range_succ_eq_map, List.map_cons, List.map_map]
      show n % 16 :: (hexList (n / 16) ++
        List.replicate (k + 1 - ((hexList (n / 16)).length + 1)) 0) = _
      rw [Nat.succ_sub_succ, ihd]
      simp only [pow_zero, Nat.div_one, Function.comp]
      congr 1
      apply List.map_congr_left
      intro i _
      simp only [Function.comp_apply]
      rw [Nat.div_div_eq_div_mul, ← pow_succ']

/-- The padded base-16 rendering of a positive 12-digit number is the
digit list `n / 16 ^ i % 16`, most significant first. -/
theorem padTo12_jsHexString (n : Nat) (hpos : 0 < n) (hlt : n < 16 ^ 12) :
    padTo12 (jsHexString n) =
      (((List.range 12).map (fun i => n / 16 ^ i % 16)).map hexDigitChar).reverse := by
  have hne : n ≠ 0 := Nat.pos_iff_ne_zero.mp hpos
  unfold padTo12 jsHexString
  rw [if_neg hne]
  have hlen : (((hexList n).map hexDigitChar).reverse).length = (hexList n).length := by
    simp
  rw [hlen]
  have hzero : hexDigitChar 0 = '0' := rfl
  have hrepl : List.replicate (12 - (hexList n).length) '0' =
      ((List.replicate (12 - (hexList n).length) 0).map hexDigitChar).reverse := by
    rw [List.map_replicate, hzero, List.reverse_replicate]
  rw [hrepl, ← List.reverse_append, ← List.map_append, hexList_padded 12 n hlt]

/-- `formatBluetoothAddress` with the padding loop and substring
concatenation written out. -/
theorem formatBluetoothAddress_eq (n : Nat) (hne : n ≠ 0) :
    formatBluetoothAddress n =
      String.mk (jsSubstr (padTo12 (jsHexString n)) 0 2 ++
        ':' :: jsSubstr (padTo12 (jsHexString n)) 2 2 ++
        ':' :: jsSubstr (padTo12 (jsHexString n)) 4 2 ++
        ':' :: jsSubstr (padTo12 (jsHexString n)) 6 2 ++
        ':' :: jsSubstr (padTo12 (jsHexString n)) 8 2 ++
        ':' :: jsSubstr (padTo12 (jsHexString n)) 10 2) := by
  unfold formatBluetoothAddress
  rw [if_neg hne]

/-- C9 (amended): every nonzero 48-bit integer address is rendered as
six lowercase-hex byte pairs joined by colons, zero-padded to 12 hex
digits; the zero address is rendered as the string `"null"`; in
particular 0x0011223344AA renders as `"00:11:22:33:44:aa"`. -/
theorem formatBluetoothAddress_amended :
    (∀ n, 0 < n → n < 2 ^ 48 → formatBluetoothAddress n = specAddressFormat n) ∧
    formatBluetoothAddress 0x0011223344AA = "00:11:22:33:44:aa" ∧
    formatBluetoothAddress 0 = "null" := by
  refine ⟨?_, by decide, by decide⟩
  intro n hpos hlt
  have hne : n ≠ 0 := Nat.pos_iff_ne_zero.mp hpos
  have hlt' : n < 16 ^ 12 := by
    have h16 : (16:Nat) ^ 12 = 2 ^ 48 := by norm_num
    omega
  have d1 : n / 16 ^ 11 % 16 = n / 2 ^ 40 % 256 / 16 := by norm_num; omega
  have d2 : n / 16 ^ 10 % 16 = n / 2 ^ 40 % 256 % 16 := by norm_num
  have d3 : n / 16 ^ 9 % 16 = n / 2 ^ 32 % 256 / 16 := by norm_num; omega
  have d4 : n / 16 ^ 8 % 16 = n / 2 ^ 32 % 256 % 16 := by norm_num
  have d5 : n / 16 ^ 7 % 16 = n / 2 ^ 24 % 256 / 16 := by norm_num; omega
  have d6 : n / 16 ^ 6 % 16 = n / 2 ^ 24 % 256 % 16 := by norm_num
  have d7 : n / 16 ^ 5 % 16 = n / 2 ^ 16 % 256 / 16 := by norm_num; omega
  have d8 : n / 16 ^ 4 % 16 = n / 2 ^ 16 % 256 % 16 := by norm_num
  have d9 : n / 16 ^ 3 % 16 = n / 2 ^ 8 % 256 / 16 := by norm_num; omega
  have d10 : n / 16 ^ 2 % 16 = n / 2 ^ 8 % 256 % 16 := by norm_num
  have d11 : n / 16 ^ 1 % 16 = n % 256 / 16 := by norm_num; omega
  have d12 : n / 16 ^ 0 % 16 = n % 256 % 16 := by norm_num
  rw [formatBluetoothAddress_eq n hne, padTo12_jsHexString n hpos hlt']
  rw [show List.range 12 = [0, 1, 2, 3, 4, 5, 6, 7, 8, 9, 10, 11] from rfl]
  simp only [List.map_cons, List.map_nil, List.reverse_cons, List.reverse_nil,
    List.nil_append, List.cons_append, List.append_nil]
  show String.mk
    [hexDigitChar (n / 16 ^ 11 % 16), hexDigitChar (n / 16 ^ 10 % 16), ':',
     hexDigitChar (n / 16 ^ 9 % 16), hexDigitChar (n / 16 ^ 8 % 16), ':',
     hexDigitChar (n / 16 ^ 7 % 16), hexDigitChar (n / 16 ^ 6 % 16), ':',
     hexDigitChar (n / 16 ^ 5 % 16), hexDigitChar (n / 16 ^ 4 % 16), ':',
     hexDigitChar (n / 16 ^ 3 % 16), hexDigitChar (n / 16 ^ 2 % 16), ':',
     hexDigitChar (n / 16 ^ 1 % 16), hexDigitChar (n / 16 ^ 0 % 16)] = specAddressFormat n
  unfold specAddressFormat byteHexPair
  simp only [List.cons_append, List.nil_append]
  rw [d1, d2, d3, d4, d5, d6, d7, d8, d9, d10, d11, d12]

/-- C9 witness: the amended rendering theorem applied to the example
address 0x0011223344AA. -/
theorem formatBluetoothAddress_amended_witness :
    0 < 0x0011223344AA ∧ (0x0011223344AA : Nat) < 2 ^ 48 ∧
    formatBluetoothAddress 0x0011223344AA = specAddressFormat 0x0011223344AA :=
  ⟨by decide, by decide,
   formatBluetoothAddress_amended.1 0x0011223344AA (by decide) (by decide)⟩

/-- C10: whenever the descriptor write fails — by rejection or by an
`unreachable`/`protocolError` status — the error handler raises a
`ReferenceError` on the undeclared identifier `withoutResponse` and no
`writeValue` completion event is emitted; only the success path emits
one. -/
theorem writeValue_failure_never_emits_event :
    writeValue (.ok ⟨3, "dsc"⟩) (.error (.error "boom")) "d" =
      .unhandled (.referenceError "withoutResponse") ∧
    writeValue (.ok ⟨3, "dsc"⟩) (.ok .unreachable) "d" =
      .unhandled (.referenceError "withoutResponse") ∧
    writeValue (.ok ⟨3, "dsc"⟩) (.ok .success) "d" = .event none := by
  decide
